import Mathlib

/-!
# Verification of the magicgui widget-resolution core

Shallow embedding of `src/magicgui/widgets/bases/_create_widget.py`
(`create_widget`) and `src/magicgui/widgets/bases/_button_widget.py`
(`ButtonWidget`), together with theorems settling the specification
claims about them.

Python dictionaries with string keys are embedded as functions
`String → Option PyVal`; Python truthiness is embedded explicitly.
External collaborators (the type registry, the backend toolkit, the
signal library) are parameters of the embedding or are modelled from
the specification where noted.
-/

namespace Magicgui

/-- Type annotations as they matter to this code: `annotation is str`
is an identity test against the `str` type. -/
inductive Ann where
  | none
  | str
  | int
  | other (t : String)
deriving DecidableEq, Repr

/-- A backend class, as seen through `isinstance` checks against the
runtime-checkable widget protocols.  Each flag records conformance to
one protocol: `widgetProtocol` is the base `WidgetProtocol` (the `""`
entry of the priority loop), the others are the specialized
capability-sets. -/
structure BackendClass where
  cname : String
  categorical : Bool
  ranged : Bool
  button : Bool
  value : Bool
  widgetProtocol : Bool
deriving DecidableEq, Repr

/-- In the real protocol hierarchy every specialized widget protocol
extends the base `WidgetProtocol`, so conformance to a specialized
capability-set entails conformance to the base one. -/
def BackendClass.WF (c : BackendClass) : Prop :=
  (c.categorical || c.ranged || c.button || c.value) = true →
    c.widgetProtocol = true

instance (c : BackendClass) : Decidable c.WF := by
  unfold BackendClass.WF; infer_instance

/-- Python values as they appear in the option dictionaries of this
code: `None`, the `Undefined` sentinel, strings, booleans, annotation
objects, backend classes, and opaque objects. -/
inductive PyVal where
  | none
  | undefined
  | str (s : String)
  | bool (b : Bool)
  | ann (a : Ann)
  | cls (c : BackendClass)
  | obj (tag : String)
deriving DecidableEq, Repr

/-- Python truthiness for the embedded values.  The `Undefined`
sentinel defines `__bool__` as `False`; classes and opaque objects are
truthy; the empty string is falsy. -/
def PyVal.truthy : PyVal → Bool
  | .none => false
  | .undefined => false
  | .str s => !s.isEmpty
  | .bool b => b
  | .ann _ => true
  | .cls _ => true
  | .obj _ => true

/-- A Python `dict` with string keys, embedded as a partial map. -/
def Dict : Type := String → Option PyVal

/-- The empty dictionary `{}`. -/
def Dict.empty : Dict := fun _ => Option.none

/-- `d[k] = v` (also the single-key extension used by `{**d, "k": v}`
and `d.update(...)`). -/
def Dict.insert (d : Dict) (k : String) (v : PyVal) : Dict :=
  fun k' => if k' = k then some v else d k'

/-- `d.get(k)`: the value at `k`, or `None` when absent. -/
def Dict.get (d : Dict) (k : String) : PyVal :=
  match d k with
  | some v => v
  | Option.none => PyVal.none

/-- `{**a, **b}`: keys of `b` win over keys of `a`. -/
def Dict.merge (a b : Dict) : Dict :=
  fun k =>
    match b k with
    | some v => some v
    | Option.none => a k

/-- The wrapper classes `bases.{p}Widget` selected by the priority
loop: `CategoricalWidget`, `RangedWidget`, `ButtonWidget`,
`ValueWidget`, and the generic `Widget` (for `p = ""`). -/
inductive Wrapper where
  | categorical
  | ranged
  | button
  | value
  | generic
deriving DecidableEq, Repr

/-- The class that `get_widget_class` returns: either a full
`magicgui` widget implementation (a subclass of `Widget`, identified
by its name), or a raw backend protocol class. -/
inductive RegClass where
  | widgetSub (w : String)
  | backend (c : BackendClass)
deriving DecidableEq, Repr

/-- The external type-to-widget-class registry
`magicgui.type_map.get_widget_class`, as a parameter: it receives
`(value, annotation, options, is_result, raise_on_unknown)` and either
raises (`.error`) or returns a class and its default options. -/
def Registry : Type :=
  PyVal → Ann → Dict → Bool → Bool → Except String (RegClass × Dict)

/-- Which class `create_widget` instantiated. -/
inductive ConsClass where
  | full (w : String)
  | wrapper (p : Wrapper)
deriving DecidableEq, Repr

/-- A constructed widget as observed at the `create_widget` boundary:
the class instantiated, the keyword arguments passed to its
constructor, and the `param_kind` attribute attached after
construction (if any). -/
structure Constructed where
  cls : ConsClass
  args : Dict
  paramKindAttr : Option String

/-- Outcome of a `create_widget` call. -/
inductive CWResult where
  | widget (con : Constructed)
  | typeErr (msg : String)
  | regErr (msg : String)

/-- `isinstance(widget_type, protocols.WidgetProtocol)`: only a class
can conform, and it conforms when it implements the base protocol. -/
def conformsWidgetProtocol : PyVal → Bool
  | .cls c => c.widgetProtocol
  | _ => false

/-- The base keyword dictionary built at the top of `create_widget`:
`{"value": value, "annotation": annotation, "name": name,
"label": label, "gui_only": gui_only}`. -/
def kwargsDict (value : PyVal) ( annotation : Ann) (name : String)
    (label : PyVal) (gui_only : Bool) : Dict := fun k =>
  if k = "value" then some value
  else if k = "annotation" then some (.ann annotation)
  else if k = "name" then some (.str name)
  else if k = "label" then some label
  else if k = "gui_only" then some (.bool gui_only)
  else Option.none

/-- `self.param_kind = param_kind` guarded by `if param_kind:`
(truthiness of the string). -/
def attachParamKind (param_kind : String) : Option String :=
  if param_kind.isEmpty then Option.none else some param_kind

/-- The protocol priority loop
`for p in ("Categorical", "Ranged", "Button", "Value", "")`:
the first protocol `wdg_class` conforms to, if any. -/
def protoMatch (c : BackendClass) : Option Wrapper :=
  if c.categorical then some .categorical
  else if c.ranged then some .ranged
  else if c.button then some .button
  else if c.value then some .value
  else if c.widgetProtocol then some .generic
  else Option.none

/-- The tail of `create_widget` for a raw backend class: pick the
first matching wrapper or raise `TypeError`.  Inside the loop the
source rebinds `_options = kwargs.pop("options", None)`; `kwargs`
never holds an `"options"` key, so this is `None` and the constructor
receives only the base kwargs plus `"widget_type": wdg_class`. -/
def wrapProtocol (kwargs : Dict) (c : BackendClass) (param_kind : String) :
    CWResult :=
  match protoMatch c with
  | some p =>
      .widget { cls := .wrapper p,
                args := kwargs.insert "widget_type" (.cls c),
                paramKindAttr := attachParamKind param_kind }
  | Option.none =>
      .typeErr (toString (repr c) ++
        " does not implement any known widget protocols")

/-- A single character of Python `str.lower()` on the ASCII range
(the names this code compares are ASCII). -/
def lowerChar (c : Char) : Char :=
  if 'A' ≤ c ∧ c ≤ 'Z' then Char.ofNat (c.toNat + 32) else c

/-- `(name or "").lower()` for ASCII names. -/
def pyLower (s : String) : String := ⟨s.data.map lowerChar⟩

/-- The two `widget_type` normalization steps before the registry
lookup: `if widget_type: _options["widget_type"] = widget_type`, then
the password special case
`if not _options.get("widget_type") and (name or "").lower() ==
"password" and annotation is str: _options["widget_type"] =
"Password"`. -/
def resolveWidgetTypeOptions (widget_type : PyVal) (opts : Dict)
    (name : String) ( annotation : Ann) : Dict :=
  let opts1 :=
    if widget_type.truthy then opts.insert "widget_type" widget_type
    else opts
  if !(opts1.get "widget_type").truthy
      && pyLower name = "password" && annotation = .str then
    opts1.insert "widget_type" (.str "Password")
  else opts1

/-- The registry branch of `create_widget`: normalize `_options`, call
`get_widget_class`, and either instantiate a full widget subclass with
`{**kwargs, **opts, **_options}` or fall through to the protocol
loop. -/
def registryLookupPath (registry : Registry) (value : PyVal)
    ( annotation : Ann) (opts : Dict) (kwargs : Dict) (widget_type : PyVal)
    (name param_kind : String) (is_result raise_on_unknown : Bool) :
    CWResult :=
  let opts2 := resolveWidgetTypeOptions widget_type opts name annotation
  match registry value annotation opts2 is_result raise_on_unknown with
  | .error m => .regErr m
  | .ok (.widgetSub w, ropts) =>
      .widget { cls := .full w,
                args := (kwargs.merge ropts).merge opts2,
                paramKindAttr := attachParamKind param_kind }
  | .ok (.backend c, _) => wrapProtocol kwargs c param_kind

/-- `create_widget` from `_create_widget.py`.  `options.copy()` is the
value `opts0`; the `assert use_app(app).native` backend bootstrap is
outside this core and elided. -/
def create_widget (registry : Registry) (value : PyVal) ( annotation : Ann)
    (name : String) (param_kind : String) (label : PyVal) (gui_only : Bool)
    (widget_type : PyVal) (options : Option Dict)
    (is_result raise_on_unknown : Bool) : CWResult :=
  let opts0 : Dict :=
    match options with
    | some d => d
    | Option.none => Dict.empty
  let kwargs := kwargsDict value annotation name label gui_only
  match widget_type with
  | .cls c =>
      if c.widgetProtocol then wrapProtocol kwargs c param_kind
      else
        registryLookupPath registry value annotation opts0 kwargs
          widget_type name param_kind is_result raise_on_unknown
  | _ =>
      registryLookupPath registry value annotation opts0 kwargs widget_type
        name param_kind is_result raise_on_unknown

/-- Modelled from the spec: `get_widget_class` lives outside the
excerpt; per §6 the registry "must honor `raise_on_unknown=False` by
returning a best-effort generic match rather than raising", i.e. a
full widget implementation the caller can use. -/
def HonorsRaiseOnUnknown (reg : Registry) : Prop :=
  ∀ v a o ir, ∃ w ropts, reg v a o ir false = .ok (.widgetSub w, ropts)

/-! ## ButtonWidget (`_button_widget.py`) -/

/-- `str.replace("_", " ")`: with a one-character pattern and
replacement this is a character map. -/
def underscoreToSpace (s : String) : String :=
  ⟨s.data.map (fun c => if c = '_' then ' ' else c)⟩

/-- Truthiness of an optional string (`None` and `""` are falsy). -/
def strTruthy : Option String → Bool
  | some s => !s.isEmpty
  | Option.none => false

/-- Python `a or b` on optional strings: `a` when truthy, else `b`
exactly as given. -/
def orFalsy (a b : Option String) : Option String :=
  if strTruthy a then a else b

/-- Modelled from the spec: the signal library (`psygnal`) is an
external collaborator; per §5 change notifications are "delivered
synchronously to registered listeners".  A signal instance is its
ordered list of registered callbacks (identified by number). -/
structure SignalInstance where
  callbacks : List Nat
deriving DecidableEq, Repr

/-- `signal.connect(cb)`: register a callback. -/
def SignalInstance.connect (s : SignalInstance) (cb : Nat) : SignalInstance :=
  ⟨s.callbacks ++ [cb]⟩

/-- Modelled from the spec: one state change invokes each registered
listener once, synchronously, in order; the result lists the callbacks
invoked by that one emission. -/
def SignalInstance.emit (s : SignalInstance) : List Nat :=
  s.callbacks

/-- A `ButtonWidget` as observable through this excerpt.  `name` and
`baseOptions` are modelled from the spec: the `Widget` base class
(outside the excerpt) stores the constructor's `name`, and
`super().options` is "the inherited base option mapping" (§4.2).
`text` is the backend's text slot: the `text` property forwards to
`_mgui_get_text`/`_mgui_set_text`, and per §4.2 "the resolved text is
pushed into the backend object's own text slot immediately at
construction and on every subsequent set". -/
structure ButtonWidget where
  name : String
  text : String
  baseOptions : Dict
  changed : SignalInstance

/-- The text resolution chain of `ButtonWidget.__init__`:
`text = text or base_widget_kwargs.get("label")`, then
`text = text or base_widget_kwargs.pop("description", None)`, then
`self.text = (text or self.name).replace("_", " ")`. -/
def resolvedText (text label description : Option String) (name : String) :
    String :=
  let t := orFalsy (orFalsy text label) description
  underscoreToSpace
    (match t with
     | some s => if s.isEmpty then name else s
     | Option.none => name)

/-- Result of `ButtonWidget.__init__`: the widget plus whether the
`'text' and 'label' are synonymous` warning was emitted. -/
structure ButtonInit where
  widget : ButtonWidget
  warned : Bool

/-- `ButtonWidget.__init__`, with `label` and `description` the values
of those keys of `base_widget_kwargs` (absent → `None`).  The warning
fires on `if text and base_widget_kwargs.get("label")`. -/
def ButtonWidget.init (text label description : Option String)
    (name : String) (baseOptions : Dict) : ButtonInit :=
  { widget := { name := name
                text := resolvedText text label description name
                baseOptions := baseOptions
                changed := ⟨[]⟩ }
    warned := strTruthy text && strTruthy label }

/-- The `text` setter: forwards to the backend text slot. -/
def ButtonWidget.setText (w : ButtonWidget) (v : String) : ButtonWidget :=
  { w with text := v }

/-- The `options` property:
`d = super().options.copy(); d.update({"text": self.text}); return d`.
The state-passing form records that the read leaves the widget
unchanged; the `.copy()` makes the returned dictionary a fresh
value. -/
def ButtonWidget.options (w : ButtonWidget) : Dict × ButtonWidget :=
  (w.baseOptions.insert "text" (.str w.text), w)

/-- The `clicked` property: `return self.changed`. -/
def ButtonWidget.clicked (w : ButtonWidget) : SignalInstance :=
  w.changed

/-! ## Helper lemmas -/

theorem Dict.merge_right (a b : Dict) (k : String) (v : PyVal)
    (h : b k = some v) : (a.merge b) k = some v := by
  simp [Dict.merge, h]

theorem Dict.merge_left (a b : Dict) (k : String)
    (h : b k = Option.none) : (a.merge b) k = a k := by
  simp [Dict.merge, h]

theorem underscoreToSpace_eq_empty_iff (s : String) :
    underscoreToSpace s = "" ↔ s = "" := by
  cases s with
  | mk data => simp [underscoreToSpace, String.ext_iff]

theorem isEmpty_false_of_ne (s : String) (h : s ≠ "") :
    s.isEmpty = false := by
  simpa [Bool.not_eq_true] using (String.isEmpty_iff s).not.mpr h

theorem protoMatch_base (c : BackendClass) (hwf : c.WF)
    (hconf : protoMatch c ≠ Option.none) : c.widgetProtocol = true := by
  rcases c with ⟨nm, cat, rng, btn, vl, wp⟩
  cases cat <;> cases rng <;> cases btn <;> cases vl <;> cases wp <;>
    simp_all [protoMatch, BackendClass.WF]

/-! ## Claim theorems -/

/-- C1, counterexample.  The claim says the merged options are
forwarded to the wrapper's constructor when the registry returns a raw
backend class.  Concretely: the registry returns a button-capable
backend class, the caller passes `options = {"x": "v"}`, the
`ButtonWidget` wrapper is chosen — yet the constructor's arguments do
not contain the key `"x"`: the merged options are dropped on this
path. -/
theorem C1_options_not_forwarded_counterexample :
    ∃ con,
      create_widget
          (fun _ _ _ _ _ =>
            .ok (.backend ⟨"MyBackendButton", false, false, true, false, true⟩,
              Dict.empty))
          PyVal.none Ann.none "btn" "POSITIONAL_OR_KEYWORD" PyVal.none false
          PyVal.none
          (some (fun k => if k = "x" then some (.str "v") else Option.none))
          false true
        = .widget con
      ∧ con.cls = .wrapper .button
      ∧ (fun k => if k = "x" then some (PyVal.str "v") else Option.none) "x"
          = some (.str "v")
      ∧ con.args "x" = Option.none := by
  refine ⟨_, rfl, rfl, rfl, rfl⟩

/-- C1, amended.  When the class returned by the registry is a raw
backend class, `create_widget` checks the capability-sets in the fixed
priority order categorical > ranged > button-like > single-value >
generic, wraps the class in the wrapper corresponding to the first
matching capability-set, passes that wrapper's constructor the base
kwargs plus the backend class as `widget_type` (the caller's options
and the registry's default options are not forwarded on this path),
and attaches `param_kind` to the resulting widget when it is
truthy. -/
theorem C1_backend_wrap_amended (registry : Registry) (value : PyVal)
    (a : Ann) (name param_kind : String) (label : PyVal) (gui_only : Bool)
    (wt : PyVal) (opts : Dict) (is_result rou : Bool)
    (c : BackendClass) (ropts : Dict)
    (hwt : conformsWidgetProtocol wt = false)
    (hreg : registry value a (resolveWidgetTypeOptions wt opts name a)
        is_result rou = .ok (.backend c, ropts)) :
    create_widget registry value a name param_kind label gui_only wt
        (some opts) is_result rou
      = wrapProtocol (kwargsDict value a name label gui_only) c param_kind
    ∧ (∀ p, protoMatch c = some p →
        wrapProtocol (kwargsDict value a name label gui_only) c param_kind
          = .widget { cls := .wrapper p,
                      args := (kwargsDict value a name label
                        gui_only).insert "widget_type" (.cls c),
                      paramKindAttr := attachParamKind param_kind })
    ∧ (c.categorical = true → protoMatch c = some .categorical)
    ∧ (c.categorical = false → c.ranged = true → protoMatch c = some .ranged)
    ∧ (c.categorical = false → c.ranged = false → c.button = true →
        protoMatch c = some .button)
    ∧ (c.categorical = false → c.ranged = false → c.button = false →
        c.value = true → protoMatch c = some .value)
    ∧ (c.categorical = false → c.ranged = false → c.button = false →
        c.value = false → c.widgetProtocol = true →
        protoMatch c = some .generic) := by
  refine ⟨?_, ?_, ?_, ?_, ?_, ?_, ?_⟩
  · have hpath : ∀ kwargs,
        registryLookupPath registry value a opts kwargs wt name param_kind
            is_result rou
          = wrapProtocol kwargs c param_kind := by
      intro kwargs
      unfold registryLookupPath
      simp only [hreg]
    cases wt with
    | cls c' =>
        simp only [conformsWidgetProtocol] at hwt
        unfold create_widget
        simp only [hwt]
        simpa using hpath _
    | none => exact hpath _
    | undefined => exact hpath _
    | str s => exact hpath _
    | bool b => exact hpath _
    | ann a2 => exact hpath _
    | obj t => exact hpath _
  · intro p hp
    unfold wrapProtocol
    rw [hp]
  · intro h ; simp [protoMatch, h]
  · intro h1 h2 ; simp [protoMatch, h1, h2]
  · intro h1 h2 h3 ; simp [protoMatch, h1, h2, h3]
  · intro h1 h2 h3 h4 ; simp [protoMatch, h1, h2, h3, h4]
  · intro h1 h2 h3 h4 h5 ; simp [protoMatch, h1, h2, h3, h4, h5]

/-- C1, witness for the amended theorem at a concrete input: a
constant registry returning a ranged backend class, empty options,
default `param_kind`. -/
theorem C1_backend_wrap_amended_witness :
    conformsWidgetProtocol PyVal.none = false
    ∧ (fun (_ : PyVal) (_ : Ann) (_ : Dict) (_ : Bool) (_ : Bool) =>
        (.ok (.backend ⟨"RB", false, true, false, true, true⟩, Dict.empty) :
          Except String (RegClass × Dict)))
        PyVal.none Ann.int
        (resolveWidgetTypeOptions PyVal.none Dict.empty "slider" Ann.int)
        false true
      = .ok (.backend ⟨"RB", false, true, false, true, true⟩, Dict.empty)
    ∧ (create_widget
          (fun _ _ _ _ _ =>
            .ok (.backend ⟨"RB", false, true, false, true, true⟩, Dict.empty))
          PyVal.none Ann.int "slider" "POSITIONAL_OR_KEYWORD" PyVal.none
          false PyVal.none (some Dict.empty) false true
        = wrapProtocol
            (kwargsDict PyVal.none Ann.int "slider" PyVal.none false)
            ⟨"RB", false, true, false, true, true⟩ "POSITIONAL_OR_KEYWORD"
      ∧ (∀ p, protoMatch ⟨"RB", false, true, false, true, true⟩ = some p →
          wrapProtocol
              (kwargsDict PyVal.none Ann.int "slider" PyVal.none false)
              ⟨"RB", false, true, false, true, true⟩ "POSITIONAL_OR_KEYWORD"
            = .widget { cls := .wrapper p,
                        args := (kwargsDict PyVal.none Ann.int "slider"
                          PyVal.none false).insert "widget_type"
                          (.cls ⟨"RB", false, true, false, true, true⟩),
                        paramKindAttr :=
                          attachParamKind "POSITIONAL_OR_KEYWORD" })
      ∧ ((⟨"RB", false, true, false, true, true⟩ :
            BackendClass).categorical = true →
          protoMatch ⟨"RB", false, true, false, true, true⟩
            = some .categorical)
      ∧ ((⟨"RB", false, true, false, true, true⟩ :
            BackendClass).categorical = false →
          (⟨"RB", false, true, false, true, true⟩ :
            BackendClass).ranged = true →
          protoMatch ⟨"RB", false, true, false, true, true⟩ = some .ranged)
      ∧ ((⟨"RB", false, true, false, true, true⟩ :
            BackendClass).categorical = false →
          (⟨"RB", false, true, false, true, true⟩ :
            BackendClass).ranged = false →
          (⟨"RB", false, true, false, true, true⟩ :
            BackendClass).button = true →
          protoMatch ⟨"RB", false, true, false, true, true⟩ = some .button)
      ∧ ((⟨"RB", false, true, false, true, true⟩ :
            BackendClass).categorical = false →
          (⟨"RB", false, true, false, true, true⟩ :
            BackendClass).ranged = false →
          (⟨"RB", false, true, false, true, true⟩ :
            BackendClass).button = false →
          (⟨"RB", false, true, false, true, true⟩ :
            BackendClass).value = true →
          protoMatch ⟨"RB", false, true, false, true, true⟩ = some .value)
      ∧ ((⟨"RB", false, true, false, true, true⟩ :
            BackendClass).categorical = false →
          (⟨"RB", false, true, false, true, true⟩ :
            BackendClass).ranged = false →
          (⟨"RB", false, true, false, true, true⟩ :
            BackendClass).button = false →
          (⟨"RB", false, true, false, true, true⟩ :
            BackendClass).value = false →
          (⟨"RB", false, true, false, true, true⟩ :
            BackendClass).widgetProtocol = true →
          protoMatch ⟨"RB", false, true, false, true, true⟩
            = some .generic)) :=
  ⟨rfl, rfl,
    C1_backend_wrap_amended
      (fun _ _ _ _ _ =>
        .ok (.backend ⟨"RB", false, true, false, true, true⟩, Dict.empty))
      PyVal.none Ann.int "slider" "POSITIONAL_OR_KEYWORD" PyVal.none false
      PyVal.none Dict.empty false true
      ⟨"RB", false, true, false, true, true⟩ Dict.empty rfl rfl⟩

/-- C2.  For `ButtonWidget` construction: with `text="A"` and
`label="B"` both supplied (both non-empty) the warning is emitted and
the display text is `"A"`; with only `label="B"` the display text is
`"B"`; with neither `text`, `label` nor the backend-specific
`description` key the display text is the widget's name with
underscores replaced by spaces. -/
theorem C2_button_text_precedence :
    (∀ (name : String) (opts : Dict),
      (ButtonWidget.init (some "A") (some "B") Option.none name
        opts).warned = true
      ∧ (ButtonWidget.init (some "A") (some "B") Option.none name
          opts).widget.text = "A")
    ∧ (∀ (name : String) (opts : Dict),
        (ButtonWidget.init Option.none (some "B") Option.none name
          opts).widget.text = "B")
    ∧ (∀ (name : String) (opts : Dict),
        (ButtonWidget.init Option.none Option.none Option.none name
          opts).widget.text = underscoreToSpace name) :=
  ⟨fun _ _ => ⟨rfl, rfl⟩, fun _ _ => rfl, fun _ _ => rfl⟩

/-- C3.  With no explicit widget type (neither the `widget_type`
argument nor a `"widget_type"` key in the options), a name equal to
`"password"` in any letter case and the `str` annotation, the resolver
forces the `"Password"` widget type into the options it hands the
registry; when the name differs (case-insensitively) or the annotation
is not `str`, the heuristic leaves the options untouched. -/
theorem C3_password_heuristic :
    (∀ (opts : Dict) (name : String) (a : Ann),
      opts "widget_type" = Option.none →
      pyLower name = "password" → a = Ann.str →
      (resolveWidgetTypeOptions PyVal.none opts name a) "widget_type"
        = some (.str "Password"))
    ∧ (∀ (wt : PyVal) (opts : Dict) (name : String) (a : Ann),
        (pyLower name ≠ "password" ∨ a ≠ Ann.str) →
        resolveWidgetTypeOptions wt opts name a =
          (if wt.truthy then opts.insert "widget_type" wt else opts)) := by
  constructor
  · intro opts name a h hp ha
    subst ha
    simp [resolveWidgetTypeOptions, PyVal.truthy, Dict.get, h, hp,
      Dict.insert]
  · intro wt opts name a hor
    unfold resolveWidgetTypeOptions
    rcases hor with h | h <;> simp [h]

/-- C3, witness: the heuristic fires for `name="PassWord"` with the
`str` annotation and empty options, and stays silent for
`name="username"`. -/
theorem C3_password_heuristic_witness :
    (Dict.empty "widget_type" = Option.none
      ∧ pyLower "PassWord" = "password"
      ∧ (resolveWidgetTypeOptions PyVal.none Dict.empty "PassWord"
          Ann.str) "widget_type" = some (.str "Password"))
    ∧ (pyLower "username" ≠ "password"
      ∧ resolveWidgetTypeOptions PyVal.none Dict.empty "username" Ann.str =
          (if PyVal.none.truthy then
            Dict.empty.insert "widget_type" PyVal.none
          else Dict.empty)) :=
  ⟨⟨rfl, by decide,
    C3_password_heuristic.1 Dict.empty "PassWord" Ann.str rfl (by decide)
      rfl⟩,
   ⟨by decide,
    C3_password_heuristic.2 PyVal.none Dict.empty "username" Ann.str
      (Or.inl (by decide))⟩⟩

/-- C4.  When the registry returns a full widget implementation,
`create_widget` instantiates it with the merge of the base kwargs, the
registry's default options and the caller's explicit options, in that
precedence (explicit options win over registry defaults, which win
over base kwargs), and attaches `param_kind` after construction when
it is provided (truthy). -/
theorem C4_full_widget_merge (registry : Registry) (value : PyVal) (a : Ann)
    (name param_kind : String) (label : PyVal) (gui_only : Bool)
    (opts : Dict) (is_result rou : Bool) (w : String) (ropts : Dict)
    (hname : ¬ (pyLower name = "password" ∧ a = Ann.str))
    (hreg : registry value a opts is_result rou = .ok (.widgetSub w, ropts))
    (hpk : param_kind ≠ "") :
    create_widget registry value a name param_kind label gui_only
        PyVal.none (some opts) is_result rou
      = .widget { cls := .full w,
                  args := ((kwargsDict value a name label
                    gui_only).merge ropts).merge opts,
                  paramKindAttr := some param_kind }
    ∧ (∀ k v, opts k = some v →
        (((kwargsDict value a name label gui_only).merge ropts).merge opts) k
          = some v)
    ∧ (∀ k v, opts k = Option.none → ropts k = some v →
        (((kwargsDict value a name label gui_only).merge ropts).merge opts) k
          = some v)
    ∧ (∀ k, opts k = Option.none → ropts k = Option.none →
        (((kwargsDict value a name label gui_only).merge ropts).merge opts) k
          = (kwargsDict value a name label gui_only) k) := by
  have hpke : param_kind.isEmpty = false := isEmpty_false_of_ne _ hpk
  have hopts2 : resolveWidgetTypeOptions PyVal.none opts name a = opts := by
    unfold resolveWidgetTypeOptions
    by_cases hp : pyLower name = "password" <;>
      by_cases ha : a = Ann.str <;>
      simp [hp, ha, PyVal.truthy] at hname ⊢
  refine ⟨?_, ?_, ?_, ?_⟩
  · show registryLookupPath registry value a opts
        (kwargsDict value a name label gui_only) PyVal.none name param_kind
        is_result rou = _
    unfold registryLookupPath
    rw [hopts2]
    simp only [hreg]
    simp [attachParamKind, hpke]
  · intro k v hk
    exact Dict.merge_right _ _ _ _ hk
  · intro k v hk hr
    rw [Dict.merge_left _ _ _ hk]
    exact Dict.merge_right _ _ _ _ hr
  · intro k hk hr
    rw [Dict.merge_left _ _ _ hk, Dict.merge_left _ _ _ hr]

/-- C4, witness: a constant registry returning the full widget class
`"SpinBox"` with one default option, a caller option that overrides
it, parameter name `"count"`. -/
theorem C4_full_widget_merge_witness :
    (¬ (pyLower "count" = "password" ∧ Ann.int = Ann.str))
    ∧ (fun (_ : PyVal) (_ : Ann) (_ : Dict) (_ : Bool) (_ : Bool) =>
        (.ok (.widgetSub "SpinBox",
          (fun k => if k = "step" then some (PyVal.str "1")
            else Option.none : Dict)) : Except String (RegClass × Dict)))
        (PyVal.str "5") Ann.int
        (fun k => if k = "step" then some (PyVal.str "2") else Option.none)
        false true
      = .ok (.widgetSub "SpinBox",
          fun k => if k = "step" then some (PyVal.str "1") else Option.none)
    ∧ ("POSITIONAL_OR_KEYWORD" : String) ≠ ""
    ∧ create_widget
        (fun _ _ _ _ _ =>
          .ok (.widgetSub "SpinBox",
            fun k => if k = "step" then some (PyVal.str "1")
              else Option.none))
        (PyVal.str "5") Ann.int "count" "POSITIONAL_OR_KEYWORD" PyVal.none
        false PyVal.none
        (some (fun k => if k = "step" then some (PyVal.str "2")
          else Option.none))
        false true
      = .widget { cls := .full "SpinBox",
                  args := ((kwargsDict (PyVal.str "5") Ann.int "count"
                    PyVal.none false).merge
                    (fun k => if k = "step" then some (PyVal.str "1")
                      else Option.none)).merge
                    (fun k => if k = "step" then some (PyVal.str "2")
                      else Option.none),
                  paramKindAttr := some "POSITIONAL_OR_KEYWORD" } :=
  ⟨by decide, rfl, by decide,
    (C4_full_widget_merge
      (fun _ _ _ _ _ =>
        .ok (.widgetSub "SpinBox",
          fun k => if k = "step" then some (PyVal.str "1") else Option.none))
      (PyVal.str "5") Ann.int "count" "POSITIONAL_OR_KEYWORD" PyVal.none
      false
      (fun k => if k = "step" then some (PyVal.str "2") else Option.none)
      false true "SpinBox"
      (fun k => if k = "step" then some (PyVal.str "1") else Option.none)
      (by decide) rfl (by decide)).1⟩

/-- C5.  When the `widget_type` argument is a class that already
conforms to a recognized capability-set, that class is used as the
implementation class (it appears as the `widget_type` of the wrapped
widget) and the registry is never queried: the outcome is the same for
any two registries. -/
theorem C5_explicit_widget_type_wins (registry1 registry2 : Registry)
    (value : PyVal) (a : Ann) (name param_kind : String) (label : PyVal)
    (gui_only : Bool) (c : BackendClass) (options : Option Dict)
    (is_result rou : Bool)
    (hwf : c.WF) (hconf : protoMatch c ≠ Option.none) :
    create_widget registry1 value a name param_kind label gui_only
        (.cls c) options is_result rou
      = wrapProtocol (kwargsDict value a name label gui_only) c param_kind
    ∧ create_widget registry1 value a name param_kind label gui_only
        (.cls c) options is_result rou
      = create_widget registry2 value a name param_kind label gui_only
          (.cls c) options is_result rou
    ∧ ∃ con, wrapProtocol (kwargsDict value a name label gui_only) c
          param_kind
        = .widget con
      ∧ con.args "widget_type" = some (.cls c) := by
  have hbase := protoMatch_base c hwf hconf
  have h1 : create_widget registry1 value a name param_kind label gui_only
      (.cls c) options is_result rou
      = wrapProtocol (kwargsDict value a name label gui_only) c
          param_kind := by
    unfold create_widget
    simp [hbase]
  have h2 : create_widget registry2 value a name param_kind label gui_only
      (.cls c) options is_result rou
      = wrapProtocol (kwargsDict value a name label gui_only) c
          param_kind := by
    unfold create_widget
    simp [hbase]
  refine ⟨h1, h1.trans h2.symm, ?_⟩
  rcases hm : protoMatch c with _ | p
  · exact absurd hm hconf
  · refine ⟨{ cls := .wrapper p,
              args := (kwargsDict value a name label
                gui_only).insert "widget_type" (.cls c),
              paramKindAttr := attachParamKind param_kind }, ?_, ?_⟩
    · unfold wrapProtocol
      rw [hm]
    · simp [Dict.insert]

/-- C5, witness: a button-capable class passed as `widget_type`, with
two registries that would fail if queried. -/
theorem C5_explicit_widget_type_wins_witness :
    (⟨"BtnCls", false, false, true, false, true⟩ : BackendClass).WF
    ∧ protoMatch ⟨"BtnCls", false, false, true, false, true⟩ ≠ Option.none
    ∧ (create_widget (fun _ _ _ _ _ => .error "registry one queried")
          (PyVal.bool true) Ann.none "go" "POSITIONAL_OR_KEYWORD"
          PyVal.none false
          (.cls ⟨"BtnCls", false, false, true, false, true⟩)
          (some Dict.empty) false true
        = wrapProtocol
            (kwargsDict (PyVal.bool true) Ann.none "go" PyVal.none false)
            ⟨"BtnCls", false, false, true, false, true⟩
            "POSITIONAL_OR_KEYWORD"
      ∧ create_widget (fun _ _ _ _ _ => .error "registry one queried")
          (PyVal.bool true) Ann.none "go" "POSITIONAL_OR_KEYWORD"
          PyVal.none false
          (.cls ⟨"BtnCls", false, false, true, false, true⟩)
          (some Dict.empty) false true
        = create_widget (fun _ _ _ _ _ => .error "registry two queried")
            (PyVal.bool true) Ann.none "go" "POSITIONAL_OR_KEYWORD"
            PyVal.none false
            (.cls ⟨"BtnCls", false, false, true, false, true⟩)
            (some Dict.empty) false true
      ∧ ∃ con, wrapProtocol
            (kwargsDict (PyVal.bool true) Ann.none "go" PyVal.none false)
            ⟨"BtnCls", false, false, true, false, true⟩
            "POSITIONAL_OR_KEYWORD"
          = .widget con
        ∧ con.args "widget_type"
            = some (.cls ⟨"BtnCls", false, false, true, false, true⟩)) :=
  ⟨by decide, by decide,
    C5_explicit_widget_type_wins
      (fun _ _ _ _ _ => .error "registry one queried")
      (fun _ _ _ _ _ => .error "registry two queried")
      (PyVal.bool true) Ann.none "go" "POSITIONAL_OR_KEYWORD" PyVal.none
      false ⟨"BtnCls", false, false, true, false, true⟩ (some Dict.empty)
      false true (by decide) (by decide)⟩

/-- C6.  When the candidate class conforms to no recognized
capability-set, `create_widget` raises a `TypeError` whose message
names the offending class; provided the registry honors
`raise_on_unknown=False` (modelled from the spec), the same call with
`raise_on_unknown=False` instead returns a widget built from a full
widget implementation. -/
theorem C6_unknown_type_error (registry : Registry) (value : PyVal)
    (a : Ann) (name param_kind : String) (label : PyVal) (gui_only : Bool)
    (opts : Dict) (is_result : Bool) (c : BackendClass) (ropts : Dict)
    (hnone : protoMatch c = Option.none)
    (hreg : registry value a
        (resolveWidgetTypeOptions PyVal.none opts name a) is_result true
      = .ok (.backend c, ropts))
    (hhon : HonorsRaiseOnUnknown registry) :
    create_widget registry value a name param_kind label gui_only PyVal.none
        (some opts) is_result true
      = .typeErr (toString (repr c) ++
          " does not implement any known widget protocols")
    ∧ ∃ con w, create_widget registry value a name param_kind label gui_only
          PyVal.none (some opts) is_result false = .widget con
        ∧ con.cls = .full w := by
  constructor
  · show registryLookupPath registry value a opts
        (kwargsDict value a name label gui_only) PyVal.none name param_kind
        is_result true = _
    unfold registryLookupPath
    simp only [hreg]
    unfold wrapProtocol
    rw [hnone]
  · obtain ⟨w, ropts', hw⟩ :=
      hhon value a (resolveWidgetTypeOptions PyVal.none opts name a)
        is_result
    refine ⟨{ cls := .full w,
              args := ((kwargsDict value a name label gui_only).merge
                ropts').merge
                (resolveWidgetTypeOptions PyVal.none opts name a),
              paramKindAttr := attachParamKind param_kind }, w, ?_, rfl⟩
    show registryLookupPath registry value a opts
        (kwargsDict value a name label gui_only) PyVal.none name param_kind
        is_result false = _
    unfold registryLookupPath
    simp only [hw]

/-- C6, witness: a registry that returns a protocol-free class when
`raise_on_unknown=True` and the full `"EmptyWidget"` class when
`raise_on_unknown=False`. -/
theorem C6_unknown_type_error_witness :
    protoMatch ⟨"NotAWidget", false, false, false, false, false⟩
      = Option.none
    ∧ (fun (_ : PyVal) (_ : Ann) (_ : Dict) (_ : Bool) (rou : Bool) =>
        (if rou then
          .ok (.backend ⟨"NotAWidget", false, false, false, false, false⟩,
            Dict.empty)
        else .ok (.widgetSub "EmptyWidget", Dict.empty) :
          Except String (RegClass × Dict)))
        (PyVal.obj "mystery") Ann.none
        (resolveWidgetTypeOptions PyVal.none Dict.empty "arg" Ann.none)
        false true
      = .ok (.backend ⟨"NotAWidget", false, false, false, false, false⟩,
          Dict.empty)
    ∧ HonorsRaiseOnUnknown
        (fun _ _ _ _ rou =>
          if rou then
            .ok (.backend ⟨"NotAWidget", false, false, false, false, false⟩,
              Dict.empty)
          else .ok (.widgetSub "EmptyWidget", Dict.empty))
    ∧ (create_widget
          (fun _ _ _ _ rou =>
            if rou then
              .ok (.backend
                ⟨"NotAWidget", false, false, false, false, false⟩,
                Dict.empty)
            else .ok (.widgetSub "EmptyWidget", Dict.empty))
          (PyVal.obj "mystery") Ann.none "arg" "POSITIONAL_OR_KEYWORD"
          PyVal.none false PyVal.none (some Dict.empty) false true
        = .typeErr (toString
            (repr (⟨"NotAWidget", false, false, false, false, false⟩ :
              BackendClass)) ++
            " does not implement any known widget protocols")
      ∧ ∃ con w, create_widget
            (fun _ _ _ _ rou =>
              if rou then
                .ok (.backend
                  ⟨"NotAWidget", false, false, false, false, false⟩,
                  Dict.empty)
              else .ok (.widgetSub "EmptyWidget", Dict.empty))
            (PyVal.obj "mystery") Ann.none "arg" "POSITIONAL_OR_KEYWORD"
            PyVal.none false PyVal.none (some Dict.empty) false false
          = .widget con
        ∧ con.cls = .full w) :=
  ⟨rfl, rfl, fun _ _ _ _ => ⟨"EmptyWidget", Dict.empty, rfl⟩,
    C6_unknown_type_error
      (fun _ _ _ _ rou =>
        if rou then
          .ok (.backend ⟨"NotAWidget", false, false, false, false, false⟩,
            Dict.empty)
        else .ok (.widgetSub "EmptyWidget", Dict.empty))
      (PyVal.obj "mystery") Ann.none "arg" "POSITIONAL_OR_KEYWORD"
      PyVal.none false Dict.empty false
      ⟨"NotAWidget", false, false, false, false, false⟩ Dict.empty
      rfl rfl (fun _ _ _ _ => ⟨"EmptyWidget", Dict.empty, rfl⟩)⟩

/-- C7, counterexample.  The claim says the display text is never the
empty string.  Constructing a `ButtonWidget` with no `text`, `label`
or `description` and an empty `name` yields the empty display text:
`(text or self.name)` evaluates to `""`. -/
theorem C7_empty_text_counterexample :
    (ButtonWidget.init Option.none Option.none Option.none ""
      Dict.empty).widget.text = "" := rfl

/-- C7, amended.  After construction the display text is the winner of
the `text`/`label`/`description` chain with the widget's name as
fallback, underscores replaced by spaces; it is empty exactly when no
truthy text source was supplied and the name is empty (in particular
it is non-empty whenever the name is non-empty), and the `text` setter
may later store any string, including the empty one. -/
theorem C7_text_empty_iff_amended (text label description : Option String)
    (name : String) (opts : Dict) :
    ((ButtonWidget.init text label description name opts).widget.text = ""
      ↔ (strTruthy (orFalsy (orFalsy text label) description) = false
          ∧ name = ""))
    ∧ (∀ w v, (ButtonWidget.setText w v).text = v) := by
  constructor
  · unfold ButtonWidget.init resolvedText
    rcases h : orFalsy (orFalsy text label) description with _ | s
    · simp [h, strTruthy, underscoreToSpace_eq_empty_iff]
    · by_cases hs : s.isEmpty
      · simp [h, hs, strTruthy, underscoreToSpace_eq_empty_iff]
      · simp [h, hs, strTruthy, underscoreToSpace_eq_empty_iff]
        simpa [String.isEmpty_iff] using hs
  · intro w v
    rfl

/-- C8.  The underscore-to-space replacement is applied to whatever
text wins the resolution chain — an explicitly supplied `text`, or a
`label` when `text` is absent — not only to the name-based
fallback. -/
theorem C8_underscore_replacement_on_winner :
    (∀ (t : String) (label description : Option String) (name : String)
        (opts : Dict), t ≠ "" →
      (ButtonWidget.init (some t) label description name opts).widget.text
        = underscoreToSpace t)
    ∧ (∀ (l : String) (description : Option String) (name : String)
        (opts : Dict), l ≠ "" →
      (ButtonWidget.init Option.none (some l) description name
        opts).widget.text = underscoreToSpace l) := by
  constructor
  · intro t label description name opts ht
    have hte : t.isEmpty = false := isEmpty_false_of_ne _ ht
    simp [ButtonWidget.init, resolvedText, orFalsy, strTruthy, hte]
  · intro l description name opts hl
    have hle : l.isEmpty = false := isEmpty_false_of_ne _ hl
    simp [ButtonWidget.init, resolvedText, orFalsy, strTruthy, hle]

/-- C8, witness: `text="my_btn"` yields display text `"my btn"`. -/
theorem C8_underscore_replacement_on_winner_witness :
    ("my_btn" : String) ≠ ""
    ∧ (ButtonWidget.init (some "my_btn") Option.none Option.none "x"
        Dict.empty).widget.text = underscoreToSpace "my_btn"
    ∧ underscoreToSpace "my_btn" = "my btn" :=
  ⟨by decide,
    C8_underscore_replacement_on_winner.1 "my_btn" Option.none Option.none
      "x" Dict.empty (by decide),
    by decide⟩

/-- C9.  Reading the `options` property returns the inherited base
option mapping extended with `"text"` bound to the current display
text, leaves the widget unchanged, and a repeated read returns the
same mapping (the source copies the base mapping, so the returned
dictionary is a fresh value and mutating it cannot affect later
reads). -/
theorem C9_options_property (w : ButtonWidget) :
    w.options = (w.baseOptions.insert "text" (.str w.text), w)
    ∧ ButtonWidget.options (w.options).2 = w.options :=
  ⟨rfl, rfl⟩

/-- C10.  The `clicked` notification and the primary `changed`
notification are the same underlying signal instance: subscribing
through either name registers on the same signal, and a callback
subscribed once through either fires exactly once per emission. -/
theorem C10_clicked_alias (w : ButtonWidget) (cb : Nat)
    (h : cb ∉ w.changed.callbacks) :
    w.clicked = w.changed
    ∧ w.clicked.connect cb = w.changed.connect cb
    ∧ (w.clicked.connect cb).emit.count cb = 1
    ∧ (w.changed.connect cb).emit.count cb = 1 := by
  refine ⟨rfl, rfl, ?_, ?_⟩ <;>
    simp [ButtonWidget.clicked, SignalInstance.connect, SignalInstance.emit,
      List.count_append, List.count_eq_zero.mpr h]

/-- C10, witness: a concrete widget with no subscribers, callback 0. -/
theorem C10_clicked_alias_witness :
    (0 ∉ (ButtonWidget.mk "n" "t" Dict.empty ⟨[]⟩).changed.callbacks)
    ∧ ((ButtonWidget.mk "n" "t" Dict.empty ⟨[]⟩).clicked
        = (ButtonWidget.mk "n" "t" Dict.empty ⟨[]⟩).changed
      ∧ (ButtonWidget.mk "n" "t" Dict.empty ⟨[]⟩).clicked.connect 0
          = (ButtonWidget.mk "n" "t" Dict.empty ⟨[]⟩).changed.connect 0
      ∧ ((ButtonWidget.mk "n" "t" Dict.empty
          ⟨[]⟩).clicked.connect 0).emit.count 0 = 1
      ∧ ((ButtonWidget.mk "n" "t" Dict.empty
          ⟨[]⟩).changed.connect 0).emit.count 0 = 1) :=
  ⟨by decide,
    C10_clicked_alias (ButtonWidget.mk "n" "t" Dict.empty ⟨[]⟩) 0
      (by decide)⟩

end Magicgui
